import Mathlib

/-!
Shallow embedding of the SSL certificate checker
(functions/ssl-checker/main.ts): the request handler registered with
Deno.serve, the probe checkCertificate, and the jsonResponse helper.
Network effects (the TLS handshake, the two fetch attempts, the clock)
are supplied through an explicit environment record; everything else is
translated line by line from the source.
-/

set_option autoImplicit false

namespace SslChecker

/-- A JSON value, as assembled by the handler before JSON.stringify.
Object fields keep insertion order; JSON.stringify omits properties
whose value is undefined, which the embedding models by omitting the
corresponding pair from the field list. -/
inductive Json where
  | str : String → Json
  | num : Int → Json
  | bool : Bool → Json
  | null : Json
  | obj : List (String × Json) → Json

/-- Field lookup in a JSON object, first match wins. -/
def getField (j : Json) (k : String) : Option Json :=
  match j with
  | Json.obj fs => (fs.find? (fun p => p.1 == k)).map (fun p => p.2)
  | _ => none

/-- Module-level allow-list ALLOWED_ORIGINS from main.ts. -/
def ALLOWED_ORIGINS : List String := ["https://hglnd.se"]

/-- JavaScript s1 || s2 on a nullable string: null and the empty string
are falsy. -/
def jsOrString (s : Option String) (d : String) : String :=
  match s with
  | none => d
  | some v => if v = "" then d else v

/-- Result of conn.handshake(): the fields the source reads, each
possibly absent (undefined or null in the runtime). -/
structure Handshake where
  tlsVersion : Option String
  alpnProtocol : Option String
deriving DecidableEq

/-- The network and clock environment of one probe run: the outcome of
Deno.connectTls plus conn.handshake() (Except.error carries the message
of the thrown error), the outcome of the HEAD and GET fetch attempts
(none means the attempt threw), Date.now() at entry and after
conn.close(), and new Date().toISOString() at assembly. -/
structure ProbeEnv where
  tlsHandshake : Except String Handshake
  headResult : Option Nat
  getResult : Option Nat
  startTime : Nat
  closeTime : Nat
  checkedAt : String

/-- The certificate record of interface CertificateResult in main.ts. -/
structure Certificate where
  subject : String
  issuer : String
  validFrom : String
  validTo : String
  daysRemaining : Int
  isValid : Bool
deriving DecidableEq

/-- The tls record of interface CertificateResult in main.ts. -/
structure TlsInfo where
  version : String
  protocol : String
deriving DecidableEq

/-- The status enum of interface CertificateResult in main.ts. -/
inductive Status where
  | online
  | error
deriving DecidableEq

/-- Interface CertificateResult in main.ts; optional fields are Option. -/
structure CertificateResult where
  host : String
  status : Status
  httpStatus : Option Nat
  certificate : Option Certificate
  tls : Option TlsInfo
  responseTimeMs : Nat
  checkedAt : String
  error : Option String
deriving DecidableEq

/-- One fetch(...) call issued by the probe: method, url, and the
milliseconds passed to AbortSignal.timeout. -/
structure FetchCall where
  method : String
  url : String
  timeoutMs : Nat
deriving DecidableEq

/-- The url https://host/ passed to fetch by the probe. -/
def fetchUrl (host : String) : String := "https://" ++ host ++ "/"

/-- checkCertificate from main.ts, paired with the trace of fetch calls
it issues. On handshake failure the catch block rethrows with the
message prefixed by TLS connection failed. On success: certInfo is
declared undefined and never assigned in the source, so the certificate
field is always none; tls is always populated (the handshake object is
truthy) with fallbacks Unknown and http/1.1; the liveness check tries
HEAD then, if that threw, GET, each with a 5000 ms timeout, and leaves
httpStatus absent when both threw. -/
def checkCertificate (host : String) (env : ProbeEnv) :
    Except String CertificateResult × List FetchCall :=
  match env.tlsHandshake with
  | Except.error msg =>
      (Except.error ("TLS connection failed: " ++ msg), [])
  | Except.ok handshake =>
      let responseTimeMs := env.closeTime - env.startTime
      let certInfo : Option Certificate := none
      let tlsInfo : Option TlsInfo :=
        some { version := jsOrString handshake.tlsVersion "Unknown",
               protocol := jsOrString handshake.alpnProtocol "http/1.1" }
      let headCall : FetchCall :=
        { method := "HEAD", url := fetchUrl host, timeoutMs := 5000 }
      let getCall : FetchCall :=
        { method := "GET", url := fetchUrl host, timeoutMs := 5000 }
      let fetched : Option Nat × List FetchCall :=
        match env.headResult with
        | some s => (some s, [headCall])
        | none =>
            match env.getResult with
            | some s => (some s, [headCall, getCall])
            | none => (none, [headCall, getCall])
      (Except.ok
        { host := host
          status := Status.online
          httpStatus := fetched.1
          certificate := certInfo
          tls := tlsInfo
          responseTimeMs := responseTimeMs
          checkedAt := env.checkedAt
          error := none },
       fetched.2)

/-- Serialization of the certificate record. -/
def certToJson (c : Certificate) : Json :=
  Json.obj [("subject", Json.str c.subject), ("issuer", Json.str c.issuer),
    ("validFrom", Json.str c.validFrom), ("validTo", Json.str c.validTo),
    ("daysRemaining", Json.num c.daysRemaining),
    ("isValid", Json.bool c.isValid)]

/-- Serialization of the status enum. -/
def statusToJson : Status → Json
  | Status.online => Json.str "online"
  | Status.error => Json.str "error"

/-- An optional object property: omitted when the value is undefined,
as JSON.stringify does. -/
def optField (k : String) (j : Option Json) : List (String × Json) :=
  match j with
  | some v => [(k, v)]
  | none => []

/-- The JSON object JSON.stringify produces from a CertificateResult:
properties in declaration order of the object literal in
checkCertificate, undefined-valued properties omitted. -/
def resultToJson (r : CertificateResult) : Json :=
  Json.obj
    ([("host", Json.str r.host), ("status", statusToJson r.status)]
      ++ optField "httpStatus" (r.httpStatus.map (fun n => Json.num (Int.ofNat n)))
      ++ optField "certificate" (r.certificate.map certToJson)
      ++ optField "tls" (r.tls.map (fun t =>
            Json.obj [("version", Json.str t.version),
                      ("protocol", Json.str t.protocol)]))
      ++ [("responseTimeMs", Json.num (Int.ofNat r.responseTimeMs)),
          ("checkedAt", Json.str r.checkedAt)]
      ++ optField "error" (r.error.map Json.str))

/-- An HTTP response as the handler builds it: status code, headers in
insertion order, and the body. body = some j stands for the string
JSON.stringify j "null, 2" (pretty-printed with two-space indent);
body = none is the null body of new Response null. -/
structure HttpResponse where
  status : Nat
  headers : List (String × String)
  body : Option Json

/-- Lookup in a header list, first match wins; no header list built by
the handler repeats a key. -/
def lookupHeader (hs : List (String × String)) (k : String) : Option String :=
  (hs.find? (fun p => p.1 == k)).map (fun p => p.2)

/-- Header lookup on a response. -/
def getHeader (resp : HttpResponse) (k : String) : Option String :=
  lookupHeader resp.headers k

/-- jsonResponse from main.ts: JSON.stringify with two-space indent,
a Content-Type header, then the extra headers spread after it. -/
def jsonResponse (data : Json) (status : Nat)
    (extraHeaders : List (String × String)) : HttpResponse :=
  { status := status
    headers := ("Content-Type", "application/json") :: extraHeaders
    body := some data }

/-- An inbound request, reduced to the three observations the handler
makes of it: request.method, request.headers.get Origin, and
url.searchParams.get host (none when the parameter is absent). -/
structure Request where
  method : String
  origin : Option String
  hostParam : Option String

/-- The three headers the handler always puts into corsHeaders. -/
def corsBase : List (String × String) :=
  [("Access-Control-Allow-Methods", "GET, OPTIONS"),
   ("Access-Control-Allow-Headers", "Content-Type"),
   ("Access-Control-Max-Age", "86400")]

/-- The corsHeaders record built at the top of the handler: the three
fixed headers, plus Access-Control-Allow-Origin echoing the request
origin exactly when it is in ALLOWED_ORIGINS. -/
def corsHeadersFor (req : Request) : List (String × String) :=
  if ALLOWED_ORIGINS.contains (jsOrString req.origin "") then
    corsBase ++ [("Access-Control-Allow-Origin", jsOrString req.origin "")]
  else
    corsBase

/-- One character of the class in the host validation regex
a-zA-Z0-9.- of main.ts line 47. -/
def isHostChar (c : Char) : Bool :=
  ('a' ≤ c && c ≤ 'z') || ('A' ≤ c && c ≤ 'Z') ||
    ('0' ≤ c && c ≤ '9') || c == '.' || c == '-'

/-- The regex test: a non-empty string all of whose characters lie in
the class. -/
def validHost (host : String) : Bool :=
  host != "" && host.toList.all isHostChar

/-- Body of the missing-host 400 response. -/
def missingHostBody : Json :=
  Json.obj [("error", Json.str "Missing \"host\" parameter")]

/-- Body of the invalid-host 400 response. -/
def invalidHostBody : Json :=
  Json.obj [("error", Json.str "Invalid host format")]

/-- Body of the 405 response. -/
def methodNotAllowedBody : Json :=
  Json.obj [("error", Json.str "Method not allowed")]

/-- Body built in the handler catch block: host, the caught error
message, and status error. -/
def probeErrorBody (host msg : String) : Json :=
  Json.obj [("host", Json.str host), ("error", Json.str msg),
            ("status", Json.str "error")]

/-- The Deno.serve handler from main.ts. Returns the response paired
with whether checkCertificate was invoked. Branches in source order:
OPTIONS preflight (new Response null with the CORS headers, default
status 200), non-GET 405, falsy host parameter (null or empty) 400
Missing, regex-rejected host 400 Invalid, then the probe; a throw from
the probe is caught and reported as a 200 with the probeErrorBody. -/
def handler (req : Request) (env : ProbeEnv) : HttpResponse × Bool :=
  let cors := corsHeadersFor req
  if req.method == "OPTIONS" then
    ({ status := 200, headers := cors, body := none }, false)
  else if req.method != "GET" then
    (jsonResponse methodNotAllowedBody 405 cors, false)
  else
    match req.hostParam with
    | none => (jsonResponse missingHostBody 400 cors, false)
    | some host =>
        if host == "" then
          (jsonResponse missingHostBody 400 cors, false)
        else if !(validHost host) then
          (jsonResponse invalidHostBody 400 cors, false)
        else
          match (checkCertificate host env).1 with
          | Except.ok result =>
              (jsonResponse (resultToJson result) 200 cors, true)
          | Except.error msg =>
              (jsonResponse (probeErrorBody host msg) 200 cors, true)

/-- Modelled from the spec: the certificate-field derivation is absent
from the checkCertificate in src (certInfo is declared undefined and
never assigned); the spec gives the formula: daysRemaining is the floor
of (validTo - now) divided by 86400 seconds. Times in seconds; Int.fdiv
is floor division. -/
def daysRemainingSpec (validTo now : Int) : Int :=
  Int.fdiv (validTo - now) 86400

/-- Modelled from the spec: isValid is true iff daysRemaining is
positive. -/
def isValidSpec (validTo now : Int) : Bool :=
  decide (0 < daysRemainingSpec validTo now)

/-! Concrete environments used to evaluate the model. -/

/-- A run whose TLS handshake succeeded and whose HEAD request returned
200. -/
def env0 : ProbeEnv :=
  { tlsHandshake := Except.ok { tlsVersion := some "TLSv1.3", alpnProtocol := some "h2" }
    headResult := some 200
    getResult := none
    startTime := 1000
    closeTime := 1145
    checkedAt := "2026-01-18T12:00:00.000Z" }

/-- A run whose TLS connect threw with message connection refused. -/
def envErr : ProbeEnv :=
  { tlsHandshake := Except.error "connection refused"
    headResult := none
    getResult := none
    startTime := 2000
    closeTime := 2010
    checkedAt := "2026-01-18T12:00:01.000Z" }

/-! Helper lemmas about the branch structure of the handler and the
probe, shared by the claim theorems below. -/

lemma validHost_ne_empty {host : String} (h : validHost host = true) :
    (host == "") = false := by
  unfold validHost at h
  exact Bool.eq_false_iff.mpr (by simpa [bne] using (Bool.and_eq_true _ _).mp h |>.1)

lemma checkCertificate_of_error {host msg : String} {env : ProbeEnv}
    (he : env.tlsHandshake = Except.error msg) :
    checkCertificate host env =
      (Except.error ("TLS connection failed: " ++ msg), []) := by
  unfold checkCertificate
  rw [he]

lemma handler_options {req : Request} (env : ProbeEnv)
    (hm : req.method = "OPTIONS") :
    handler req env =
      ({ status := 200, headers := corsHeadersFor req, body := none }, false) := by
  unfold handler
  rw [hm]
  rfl

lemma handler_bad_method {req : Request} (env : ProbeEnv)
    (h1 : req.method ≠ "OPTIONS") (h2 : req.method ≠ "GET") :
    handler req env =
      (jsonResponse methodNotAllowedBody 405 (corsHeadersFor req), false) := by
  unfold handler
  rw [beq_eq_false_iff_ne.mpr h1, if_neg (by simp), bne_iff_ne.mpr h2]
  simp

lemma handler_missing_host {req : Request} (env : ProbeEnv)
    (hm : req.method = "GET") (hh : req.hostParam = none) :
    handler req env =
      (jsonResponse missingHostBody 400 (corsHeadersFor req), false) := by
  unfold handler
  rw [hm, hh]
  rfl

lemma handler_empty_host {req : Request} (env : ProbeEnv)
    (hm : req.method = "GET") (hh : req.hostParam = some "") :
    handler req env =
      (jsonResponse missingHostBody 400 (corsHeadersFor req), false) := by
  unfold handler
  rw [hm, hh]
  rfl

lemma handler_invalid_host {req : Request} (env : ProbeEnv) {host : String}
    (hm : req.method = "GET") (hh : req.hostParam = some host)
    (hne : (host == "") = false) (hv : validHost host = false) :
    handler req env =
      (jsonResponse invalidHostBody 400 (corsHeadersFor req), false) := by
  unfold handler
  rw [hm, hh]
  simp [hne, hv]

lemma handler_probe {req : Request} (env : ProbeEnv) {host : String}
    (hm : req.method = "GET") (hh : req.hostParam = some host)
    (hv : validHost host = true) :
    handler req env =
      (match (checkCertificate host env).1 with
       | Except.ok result =>
           (jsonResponse (resultToJson result) 200 (corsHeadersFor req), true)
       | Except.error msg =>
           (jsonResponse (probeErrorBody host msg) 200 (corsHeadersFor req), true)) := by
  unfold handler
  rw [hm, hh]
  simp [validHost_ne_empty hv, hv]

/-- C1: the claim says a successful probe returns a certificate record
populated from the peer certificate. Evaluating checkCertificate at a
run whose handshake succeeded shows the code returns the report with
status online but certificate absent: certInfo is declared undefined in
the source and never assigned, contradicting the repository README,
which documents a populated certificate record in the response. -/
theorem certificate_absent_on_successful_probe :
    (checkCertificate "example.com" env0).1 =
      Except.ok
        { host := "example.com"
          status := Status.online
          httpStatus := some 200
          certificate := none
          tls := some { version := "TLSv1.3", protocol := "h2" }
          responseTimeMs := 145
          checkedAt := "2026-01-18T12:00:00.000Z"
          error := none } := rfl

/-- C2: for the spec-modelled certificate-field derivation,
daysRemaining is exactly the floor of (validTo - now) / 86400 — the
unique integer d with 86400 d ≤ validTo - now < 86400 (d + 1) — it can
be negative, and isValid holds iff daysRemaining is positive. -/
theorem daysRemaining_is_floor_and_isValid_iff_pos (validTo now : Int) :
    (86400 * daysRemainingSpec validTo now ≤ validTo - now ∧
      validTo - now < 86400 * (daysRemainingSpec validTo now + 1)) ∧
    (isValidSpec validTo now = true ↔ 0 < daysRemainingSpec validTo now) ∧
    daysRemainingSpec 0 86400 < 0 := by
  refine ⟨?_, by simp [isValidSpec], by decide⟩
  have h : daysRemainingSpec validTo now = (validTo - now) / 86400 :=
    Int.fdiv_eq_ediv _ (by norm_num)
  have h1 := Int.ediv_add_emod (validTo - now) 86400
  have h2 := Int.emod_nonneg (validTo - now) (by norm_num : (86400 : Int) ≠ 0)
  have h3 := Int.emod_lt_of_pos (validTo - now) (by norm_num : (0 : Int) < 86400)
  constructor <;> rw [h] <;> linarith

/-- C3: when the method is GET, the host parameter passes validation,
and the TLS handshake throws with message msg, the handler returns HTTP
status 200 with a body whose status field is the string error and whose
error field is the message of the thrown probe failure, namely
TLS connection failed: msg. -/
theorem probe_failure_reported_as_data (req : Request) (env : ProbeEnv)
    (host msg : String) (hm : req.method = "GET")
    (hh : req.hostParam = some host) (hv : validHost host = true)
    (he : env.tlsHandshake = Except.error msg) :
    ∃ j, (handler req env).1.status = 200 ∧ (handler req env).1.body = some j ∧
      getField j "status" = some (Json.str "error") ∧
      getField j "error" = some (Json.str ("TLS connection failed: " ++ msg)) := by
  rw [handler_probe env hm hh hv, checkCertificate_of_error he]
  exact ⟨probeErrorBody host ("TLS connection failed: " ++ msg), rfl, rfl, rfl, rfl⟩

/-- Witness for C3 at a concrete request and failing environment. -/
theorem probe_failure_reported_as_data_witness :
    ∃ j,
      (handler { method := "GET", origin := none,
                 hostParam := some "unreachable.example" } envErr).1.status = 200 ∧
      (handler { method := "GET", origin := none,
                 hostParam := some "unreachable.example" } envErr).1.body = some j ∧
      getField j "status" = some (Json.str "error") ∧
      getField j "error" =
        some (Json.str ("TLS connection failed: " ++ "connection refused")) :=
  probe_failure_reported_as_data _ envErr _ _ rfl rfl (by decide) rfl

/-- C5: for a GET request, an absent host parameter yields the 400
missing-host response without invoking the probe, and a host parameter
holding any character outside a-zA-Z0-9.- yields the 400 invalid-host
response without invoking the probe. -/
theorem host_param_validation (req : Request) (env : ProbeEnv)
    (hm : req.method = "GET") :
    (req.hostParam = none →
      handler req env =
        (jsonResponse missingHostBody 400 (corsHeadersFor req), false)) ∧
    (∀ host c, req.hostParam = some host → c ∈ host.toList →
      isHostChar c = false →
      handler req env =
        (jsonResponse invalidHostBody 400 (corsHeadersFor req), false)) := by
  refine ⟨fun hh => handler_missing_host env hm hh, ?_⟩
  intro host c hh hc hbad
  have hne : (host == "") = false := by
    cases hq : (host == "") with
    | false => rfl
    | true =>
        rw [beq_iff_eq] at hq
        subst hq
        simp at hc
  have hv : validHost host = false := by
    have hall : host.toList.all isHostChar = false :=
      List.all_eq_false.mpr ⟨c, hc, by simp [hbad]⟩
    unfold validHost
    rw [hall, Bool.and_false]
  exact handler_invalid_host env hm hh hne hv

/-- Witness for C5: an absent host and the host exa mple.com, whose
space character is outside the class. -/
theorem host_param_validation_witness :
    (handler { method := "GET", origin := none, hostParam := none } env0 =
      (jsonResponse missingHostBody 400
        (corsHeadersFor { method := "GET", origin := none, hostParam := none }),
       false)) ∧
    (handler { method := "GET", origin := none,
               hostParam := some "exa mple.com" } env0 =
      (jsonResponse invalidHostBody 400
        (corsHeadersFor { method := "GET", origin := none,
                          hostParam := some "exa mple.com" }),
       false)) := by
  constructor
  · exact (host_param_validation _ env0 rfl).1 rfl
  · exact (host_param_validation _ env0 rfl).2 "exa mple.com" ' '
      rfl (by decide) (by decide)

/-- C6: a method that is neither GET nor OPTIONS yields the 405
method-not-allowed response without invoking the probe, and an OPTIONS
request yields a response with empty body and exactly the CORS headers,
without invoking the probe. -/
theorem method_dispatch (req : Request) (env : ProbeEnv) :
    (req.method ≠ "OPTIONS" → req.method ≠ "GET" →
      handler req env =
        (jsonResponse methodNotAllowedBody 405 (corsHeadersFor req), false)) ∧
    (req.method = "OPTIONS" →
      handler req env =
        ({ status := 200, headers := corsHeadersFor req, body := none }, false)) :=
  ⟨fun h1 h2 => handler_bad_method env h1 h2, fun hm => handler_options env hm⟩

/-- Witness for C6 at a POST request and an OPTIONS request. -/
theorem method_dispatch_witness :
    (handler { method := "POST", origin := none,
               hostParam := some "example.com" } env0 =
      (jsonResponse methodNotAllowedBody 405
        (corsHeadersFor { method := "POST", origin := none,
                          hostParam := some "example.com" }),
       false)) ∧
    (handler { method := "OPTIONS", origin := none, hostParam := none } env0 =
      ({ status := 200
         headers := corsHeadersFor { method := "OPTIONS", origin := none,
                                     hostParam := none }
         body := none },
       false)) :=
  ⟨(method_dispatch _ env0).1 (by decide) (by decide),
   (method_dispatch _ env0).2 rfl⟩

/-- C10: a GET request whose host parameter is present with the empty
value is answered with the 400 missing-host body, not the invalid-host
body, and no probe runs: the source guards with a truthiness test that
treats the empty string like null. -/
theorem empty_host_treated_as_missing (req : Request) (env : ProbeEnv)
    (hm : req.method = "GET") (hh : req.hostParam = some "") :
    handler req env =
      (jsonResponse missingHostBody 400 (corsHeadersFor req), false) :=
  handler_empty_host env hm hh

/-- Witness for C10 at a concrete request with an empty host value. -/
theorem empty_host_treated_as_missing_witness :
    handler { method := "GET", origin := none, hostParam := some "" } env0 =
      (jsonResponse missingHostBody 400
        (corsHeadersFor { method := "GET", origin := none,
                          hostParam := some "" }),
       false) :=
  empty_host_treated_as_missing _ env0 rfl rfl

lemma checkCertificate_of_ok {host : String} {env : ProbeEnv} {hs : Handshake}
    (hok : env.tlsHandshake = Except.ok hs) :
    checkCertificate host env =
      (Except.ok
        { host := host
          status := Status.online
          httpStatus :=
            (match env.headResult with
             | some s => some s
             | none => env.getResult)
          certificate := none
          tls := some { version := jsOrString hs.tlsVersion "Unknown",
                        protocol := jsOrString hs.alpnProtocol "http/1.1" }
          responseTimeMs := env.closeTime - env.startTime
          checkedAt := env.checkedAt
          error := none },
       (match env.headResult with
        | some _ => [{ method := "HEAD", url := fetchUrl host, timeoutMs := 5000 }]
        | none => [{ method := "HEAD", url := fetchUrl host, timeoutMs := 5000 },
                   { method := "GET", url := fetchUrl host, timeoutMs := 5000 }])) := by
  unfold checkCertificate
  rw [hok]
  cases h1 : env.headResult with
  | some s => rfl
  | none =>
      cases h2 : env.getResult with
      | some s => rfl
      | none => rfl

lemma handler_headers (req : Request) (env : ProbeEnv) :
    (handler req env).1.headers = corsHeadersFor req ∨
    (handler req env).1.headers =
      ("Content-Type", "application/json") :: corsHeadersFor req := by
  by_cases h1 : req.method = "OPTIONS"
  · rw [handler_options env h1]
    left
    rfl
  · by_cases h2 : req.method = "GET"
    · cases hh : req.hostParam with
      | none =>
          rw [handler_missing_host env h2 hh]
          right
          rfl
      | some host =>
          by_cases h3 : host = ""
          · subst h3
            rw [handler_empty_host env h2 hh]
            right
            rfl
          · cases hv : validHost host with
            | false =>
                rw [handler_invalid_host env h2 hh (beq_eq_false_iff_ne.mpr h3) hv]
                right
                rfl
            | true =>
                rw [handler_probe env h2 hh hv]
                cases hcc : (checkCertificate host env).1 with
                | ok r => right; rfl
                | error m => right; rfl
    · rw [handler_bad_method env h1 h2]
      right
      rfl

lemma lookupHeader_cors (req : Request) :
    lookupHeader (corsHeadersFor req) "Access-Control-Allow-Methods" =
      some "GET, OPTIONS" ∧
    lookupHeader (corsHeadersFor req) "Access-Control-Allow-Headers" =
      some "Content-Type" ∧
    lookupHeader (corsHeadersFor req) "Access-Control-Max-Age" = some "86400" ∧
    lookupHeader (corsHeadersFor req) "Content-Type" = none ∧
    lookupHeader (corsHeadersFor req) "Access-Control-Allow-Origin" =
      (if ALLOWED_ORIGINS.contains (jsOrString req.origin "") then
        some (jsOrString req.origin "") else none) := by
  unfold corsHeadersFor
  by_cases h : ALLOWED_ORIGINS.contains (jsOrString req.origin "") = true
  · rw [if_pos h, if_pos h]
    exact ⟨rfl, rfl, rfl, rfl, rfl⟩
  · rw [if_neg h, if_neg h]
    exact ⟨rfl, rfl, rfl, rfl, rfl⟩

/-- C4 counterexample: for a request carrying no Origin header the
response still carries the CORS header Access-Control-Allow-Methods, so
CORS headers are not omitted — only Access-Control-Allow-Origin is. -/
theorem cors_not_omitted_without_origin :
    getHeader (handler { method := "GET", origin := none,
                         hostParam := some "example.com" } env0).1
        "Access-Control-Allow-Origin" = none ∧
    getHeader (handler { method := "GET", origin := none,
                         hostParam := some "example.com" } env0).1
        "Access-Control-Allow-Methods" = some "GET, OPTIONS" :=
  ⟨rfl, rfl⟩

/-- C4 amended: for every request, Access-Control-Allow-Origin is
present iff the Origin header is an exact member of ALLOWED_ORIGINS, in
which case it echoes that origin; when no Origin is present or none
matches, only that header is omitted — the other three CORS headers are
sent on every response. -/
theorem allow_origin_iff_exact_match (req : Request) (env : ProbeEnv) :
    getHeader (handler req env).1 "Access-Control-Allow-Origin" =
      (if ALLOWED_ORIGINS.contains (jsOrString req.origin "") then
        some (jsOrString req.origin "") else none) ∧
    getHeader (handler req env).1 "Access-Control-Allow-Methods" =
      some "GET, OPTIONS" ∧
    getHeader (handler req env).1 "Access-Control-Allow-Headers" =
      some "Content-Type" ∧
    getHeader (handler req env).1 "Access-Control-Max-Age" = some "86400" := by
  have hc := lookupHeader_cors req
  unfold getHeader
  rcases handler_headers req env with h | h <;> rw [h]
  · exact ⟨hc.2.2.2.2, hc.1, hc.2.1, hc.2.2.1⟩
  · exact ⟨hc.2.2.2.2, hc.1, hc.2.1, hc.2.2.1⟩

/-- C7 counterexample: the error report produced by a failed probe
carries neither responseTimeMs nor checkedAt. -/
theorem error_report_lacks_time_fields :
    ∃ j,
      (handler { method := "GET", origin := none,
                 hostParam := some "unreachable.example" } envErr).1.body =
        some j ∧
      getField j "responseTimeMs" = none ∧ getField j "checkedAt" = none :=
  ⟨probeErrorBody "unreachable.example"
      ("TLS connection failed: " ++ "connection refused"), rfl, rfl, rfl⟩

/-- C7 amended: every online report carries responseTimeMs (the probe
duration) and checkedAt, but the error report produced when the probe
fails carries neither — its body holds only host, error and status. -/
theorem time_fields_only_on_online_report (req : Request) (env : ProbeEnv)
    (host : String) (hm : req.method = "GET") (hh : req.hostParam = some host)
    (hv : validHost host = true) :
    (∀ hs, env.tlsHandshake = Except.ok hs →
      ∃ j, (handler req env).1.body = some j ∧
        getField j "responseTimeMs" =
          some (Json.num (Int.ofNat (env.closeTime - env.startTime))) ∧
        getField j "checkedAt" = some (Json.str env.checkedAt)) ∧
    (∀ msg, env.tlsHandshake = Except.error msg →
      ∃ j, (handler req env).1.body = some j ∧
        getField j "responseTimeMs" = none ∧
        getField j "checkedAt" = none) := by
  constructor
  · intro hs hok
    rw [handler_probe env hm hh hv, checkCertificate_of_ok hok]
    cases h1 : env.headResult with
    | some s => exact ⟨_, rfl, rfl, rfl⟩
    | none =>
        cases h2 : env.getResult with
        | some s => exact ⟨_, rfl, rfl, rfl⟩
        | none => exact ⟨_, rfl, rfl, rfl⟩
  · intro msg herr
    rw [handler_probe env hm hh hv, checkCertificate_of_error herr]
    exact ⟨_, rfl, rfl, rfl⟩

/-- Witness for C7 at a successful run and at a failed run. -/
theorem time_fields_only_on_online_report_witness :
    (∃ j,
      (handler { method := "GET", origin := none,
                 hostParam := some "example.com" } env0).1.body = some j ∧
      getField j "responseTimeMs" =
        some (Json.num (Int.ofNat (env0.closeTime - env0.startTime))) ∧
      getField j "checkedAt" = some (Json.str env0.checkedAt)) ∧
    (∃ j,
      (handler { method := "GET", origin := none,
                 hostParam := some "hglnd.se" } envErr).1.body = some j ∧
      getField j "responseTimeMs" = none ∧
      getField j "checkedAt" = none) :=
  ⟨(time_fields_only_on_online_report _ env0 "example.com"
      rfl rfl (by decide)).1 _ rfl,
   (time_fields_only_on_online_report _ envErr "hglnd.se"
      rfl rfl (by decide)).2 "connection refused" rfl⟩

/-- C8: when the handshake succeeds, the probe issues a HEAD fetch with
a 5000 ms timeout; only if that fails it issues one GET fetch with a
5000 ms timeout; httpStatus takes the first successful status and stays
absent when both fail, while the probe still returns status online; at
most two fetch calls are ever made, each with the 5000 ms timeout. -/
theorem liveness_head_then_get (host : String) (env : ProbeEnv)
    (hs : Handshake) (hok : env.tlsHandshake = Except.ok hs) :
    (∀ s, env.headResult = some s →
      (checkCertificate host env).2 =
        [{ method := "HEAD", url := fetchUrl host, timeoutMs := 5000 }] ∧
      ∃ r, (checkCertificate host env).1 = Except.ok r ∧
        r.httpStatus = some s ∧ r.status = Status.online) ∧
    (∀ s, env.headResult = none → env.getResult = some s →
      (checkCertificate host env).2 =
        [{ method := "HEAD", url := fetchUrl host, timeoutMs := 5000 },
         { method := "GET", url := fetchUrl host, timeoutMs := 5000 }] ∧
      ∃ r, (checkCertificate host env).1 = Except.ok r ∧
        r.httpStatus = some s ∧ r.status = Status.online) ∧
    (env.headResult = none → env.getResult = none →
      (checkCertificate host env).2 =
        [{ method := "HEAD", url := fetchUrl host, timeoutMs := 5000 },
         { method := "GET", url := fetchUrl host, timeoutMs := 5000 }] ∧
      ∃ r, (checkCertificate host env).1 = Except.ok r ∧
        r.httpStatus = none ∧ r.status = Status.online) ∧
    (∀ call ∈ (checkCertificate host env).2, call.timeoutMs = 5000) ∧
    (checkCertificate host env).2.length ≤ 2 := by
  rw [checkCertificate_of_ok hok]
  cases h1 : env.headResult with
  | some s0 =>
      refine ⟨?_, ?_, ?_, ?_, by simp⟩
      · intro s h
        cases h
        exact ⟨rfl, _, rfl, rfl, rfl⟩
      · intro s h
        exact absurd h (by simp)
      · intro h
        exact absurd h (by simp)
      · intro call hcall
        rw [List.mem_singleton] at hcall
        subst hcall
        rfl
  | none =>
      cases h2 : env.getResult with
      | some t0 =>
          refine ⟨?_, ?_, ?_, ?_, by simp⟩
          · intro s h
            exact absurd h (by simp)
          · intro s _ h
            cases h
            exact ⟨rfl, _, rfl, rfl, rfl⟩
          · intro _ h
            exact absurd h (by simp)
          · intro call hcall
            rw [List.mem_cons, List.mem_singleton] at hcall
            rcases hcall with h | h <;> (subst h; rfl)
      | none =>
          refine ⟨?_, ?_, ?_, ?_, by simp⟩
          · intro s h
            exact absurd h (by simp)
          · intro s _ h
            exact absurd h (by simp)
          · intro _ _
            exact ⟨rfl, _, rfl, rfl, rfl⟩
          · intro call hcall
            rw [List.mem_cons, List.mem_singleton] at hcall
            rcases hcall with h | h <;> (subst h; rfl)

/-- Witness for C8 at a run whose HEAD attempt returned 200. -/
theorem liveness_head_then_get_witness :
    (checkCertificate "example.com" env0).2 =
      [{ method := "HEAD", url := fetchUrl "example.com", timeoutMs := 5000 }] ∧
    ∃ r, (checkCertificate "example.com" env0).1 = Except.ok r ∧
      r.httpStatus = some 200 ∧ r.status = Status.online :=
  (liveness_head_then_get "example.com" env0 _ rfl).1 200 rfl

/-- C9 counterexample: the OPTIONS preflight response has a null body
and no Content-Type header, so it is not a pretty-printed JSON
response. -/
theorem options_response_not_json :
    (handler { method := "OPTIONS", origin := some "https://hglnd.se",
               hostParam := none } env0).1.body = none ∧
    getHeader (handler { method := "OPTIONS", origin := some "https://hglnd.se",
                         hostParam := none } env0).1 "Content-Type" = none :=
  ⟨rfl, rfl⟩

/-- C9 amended: every response except the OPTIONS preflight carries a
body serialized by JSON.stringify with two-space indent and the header
Content-Type application/json; the OPTIONS preflight response has a
null body and no Content-Type header. -/
theorem responses_json_except_preflight (req : Request) (env : ProbeEnv) :
    (req.method ≠ "OPTIONS" →
      ∃ j, (handler req env).1.body = some j ∧
        getHeader (handler req env).1 "Content-Type" =
          some "application/json") ∧
    (req.method = "OPTIONS" →
      (handler req env).1.body = none ∧
      getHeader (handler req env).1 "Content-Type" = none) := by
  constructor
  · intro hne
    by_cases h2 : req.method = "GET"
    · cases hh : req.hostParam with
      | none =>
          rw [handler_missing_host env h2 hh]
          exact ⟨_, rfl, rfl⟩
      | some host =>
          by_cases h3 : host = ""
          · subst h3
            rw [handler_empty_host env h2 hh]
            exact ⟨_, rfl, rfl⟩
          · cases hv : validHost host with
            | false =>
                rw [handler_invalid_host env h2 hh
                  (beq_eq_false_iff_ne.mpr h3) hv]
                exact ⟨_, rfl, rfl⟩
            | true =>
                rw [handler_probe env h2 hh hv]
                cases hcc : (checkCertificate host env).1 with
                | ok r => exact ⟨_, rfl, rfl⟩
                | error m => exact ⟨_, rfl, rfl⟩
    · rw [handler_bad_method env hne h2]
      exact ⟨_, rfl, rfl⟩
  · intro hm
    rw [handler_options env hm]
    exact ⟨rfl, (lookupHeader_cors req).2.2.2.1⟩

/-- Witness for C9 at a GET request and an OPTIONS request. -/
theorem responses_json_except_preflight_witness :
    (∃ j,
      (handler { method := "GET", origin := none,
                 hostParam := none } env0).1.body = some j ∧
      getHeader (handler { method := "GET", origin := none,
                           hostParam := none } env0).1 "Content-Type" =
        some "application/json") ∧
    ((handler { method := "OPTIONS", origin := none,
                hostParam := none } env0).1.body = none ∧
      getHeader (handler { method := "OPTIONS", origin := none,
                           hostParam := none } env0).1 "Content-Type" = none) :=
  ⟨(responses_json_except_preflight _ env0).1 (by decide),
   (responses_json_except_preflight _ env0).2 rfl⟩

end SslChecker
